import Mathlib

/-!
Verification of the Flowsta SDK core: the PKCE/OAuth engine
(authorization-URL construction, callback validation, token exchange,
session-scoped correlation store) and the widget lifecycle framework
(lifecycle state machine, event emitter, step-flow widgets).

Each definition is a shallow embedding of the corresponding TypeScript
function; network responses and the DOMPurify sanitizer are passed in as
explicit parameters, and browser sessionStorage is modelled as an
association list of string keys and values.
-/

namespace Flowsta

/-! ## Browser sessionStorage model

`sessionStorage` is a string-keyed string store.  `setItem` overwrites,
`removeItem` deletes, `getItem` returns the value or `none`. -/

/-- A browser `sessionStorage` instance: an association list of keys and
values, with at most one live binding per key (`getItem` reads the first). -/
def Storage := List (String × String)

/-- `sessionStorage.getItem(k)`: the stored value, or `none` (JS `null`). -/
def getItem (st : Storage) (k : String) : Option String :=
  (List.find? (fun p => p.1 == k) st).map (fun p => p.2)

/-- `sessionStorage.removeItem(k)`. -/
def removeItem (st : Storage) (k : String) : Storage :=
  List.filter (fun p => !(p.1 == k)) st

/-- `sessionStorage.setItem(k, v)`: overwrites any previous binding. -/
def setItem (st : Storage) (k v : String) : Storage :=
  (k, v) :: removeItem st k

/-- JS truthiness of a `string | null` value: `null` and `""` are falsy. -/
def jsTruthy : Option String → Bool
  | none => false
  | some s => !(s == "")

/-- JS `a || b` for `a : string | null` and a string default `b`. -/
def jsOr (a : Option String) (b : String) : String :=
  match a with
  | none => b
  | some s => if s == "" then b else s

/-! ## PKCE correlation store (`utils/pkce.ts`)

`storeCodeVerifier` keys the PKCE verifier by the CSRF `state`;
`retrieveCodeVerifier` reads it back and deletes it on first
(truthy) read. -/

/-- `storeCodeVerifier(verifier, state)`:
`sessionStorage.setItem('flowsta_code_verifier_' + state, verifier)`. -/
def storeCodeVerifier (st : Storage) (verifier state : String) : Storage :=
  setItem st ("flowsta_code_verifier_" ++ state) verifier

/-- `retrieveCodeVerifier(state)`: reads the keyed verifier and, when one
is found (truthy), removes it; returns the verifier (or `none`) together
with the updated store. -/
def retrieveCodeVerifier (st : Storage) (state : String) :
    Option String × Storage :=
  let key := "flowsta_code_verifier_" ++ state
  match getItem st key with
  | none => (none, st)
  | some v =>
      if v == "" then (some v, st)
      else (some v, removeItem st key)

/-! ## FlowstaAuth engine (`FlowstaAuth` in the auth SDK)

`login()` stores the verifier under `flowsta_code_verifier` and the CSRF
state under `flowsta_state`; `handleCallback()` validates the callback
parameters in order, performs the token exchange and user-info fetch
(both modelled by an explicit response oracle), and deletes the two
correlation entries between the two network calls. -/

/-- Engine configuration (the `Required<FlowstaAuthConfig>` fields the
callback path uses). -/
structure AuthConfig where
  clientId : String
  redirectUri : String
  deriving Repr, DecidableEq

/-- Query parameters of the OAuth callback URL, each `string | null`. -/
structure CallbackParams where
  error : Option String
  errorDescription : Option String
  code : Option String
  state : Option String
  deriving Repr, DecidableEq

/-- The normalized user profile built from the user-info response. -/
structure FlowstaUser where
  id : String
  email : Option String
  displayName : Option String
  deriving Repr, DecidableEq

/-- Failure modes of one login attempt (`handleCallback` throw sites, in
source order). -/
inductive AuthError where
  | oauthDenied : String → AuthError
  | missingCode : AuthError
  | csrfFailed : AuthError
  | missingVerifier : AuthError
  | tokenExchangeFailed : String → AuthError
  | userInfoFetchFailed : AuthError
  deriving Repr, DecidableEq

/-- The JSON body of the token-exchange POST request. -/
structure TokenRequest where
  code : String
  redirectUri : String
  clientId : String
  codeVerifier : String
  deriving Repr, DecidableEq

/-- Oracle for the two network calls `handleCallback` makes: the
token-exchange response and the user-info response. -/
structure NetOracle where
  tokenOk : Bool
  tokenErrorDescription : Option String
  accessToken : String
  refreshToken : Option String
  userOk : Bool
  userId : String
  userEmail : Option String
  userDisplayName : Option String
  deriving Repr, DecidableEq

/-- Result of running `handleCallback`: the thrown error or returned
user, the sessionStorage afterwards, and the token-exchange request that
was issued (`none` when the function failed before any network call). -/
structure CallbackResult where
  result : Except AuthError FlowstaUser
  store : Storage
  tokenRequest : Option TokenRequest

/-- `FlowstaAuth.login()`'s effect on sessionStorage: stores the fresh
PKCE verifier and CSRF state (both produced by the secure random source,
passed in here) under the engine's two fixed keys. -/
def loginStore (st : Storage) (verifier state : String) : Storage :=
  setItem (setItem st "flowsta_code_verifier" verifier) "flowsta_state" state

/-- `FlowstaAuth.handleCallback()`: validates `error`, `code`, `state`
(against the stored `flowsta_state`) and the stored verifier, in that
order and all before any network call; then exchanges the code (the
request body is recorded), deletes the two correlation entries, and
fetches the user info. -/
def handleCallback (cfg : AuthConfig) (p : CallbackParams) (net : NetOracle)
    (st : Storage) : CallbackResult :=
  if jsTruthy p.error then
    ⟨.error (.oauthDenied (jsOr p.errorDescription (p.error.getD ""))), st, none⟩
  else if !(jsTruthy p.code) then
    ⟨.error .missingCode, st, none⟩
  else if !(jsTruthy p.state) || !(getItem st "flowsta_state" == p.state) then
    ⟨.error .csrfFailed, st, none⟩
  else if !(jsTruthy (getItem st "flowsta_code_verifier")) then
    ⟨.error .missingVerifier, st, none⟩
  else
    let req : TokenRequest :=
      ⟨p.code.getD "", cfg.redirectUri, cfg.clientId,
        (getItem st "flowsta_code_verifier").getD ""⟩
    if !net.tokenOk then
      ⟨.error (.tokenExchangeFailed (jsOr net.tokenErrorDescription "Token exchange failed")),
        st, some req⟩
    else
      let st' := removeItem (removeItem st "flowsta_code_verifier") "flowsta_state"
      if !net.userOk then
        ⟨.error .userInfoFetchFailed, st', some req⟩
      else
        ⟨.ok ⟨net.userId, net.userEmail, net.userDisplayName⟩, st', some req⟩

/-! ## URL construction (`utils/oauth.ts`)

`buildAuthorizationUrl` serializes its query parameters with
`URLSearchParams.toString()`, i.e. `application/x-www-form-urlencoded`:
ASCII alphanumerics and `*`, `-`, `.`, `_` pass through, a space becomes
`+`, every other character is percent-encoded byte-wise (UTF-8,
uppercase hex). -/

/-- Uppercase hexadecimal digit. -/
def hexDigit (n : Nat) : Char :=
  List.getD ['0', '1', '2', '3', '4', '5', '6', '7', '8', '9',
    'A', 'B', 'C', 'D', 'E', 'F'] n '0'

/-- UTF-8 bytes of a code point. -/
def utf8Bytes (n : Nat) : List Nat :=
  if n < 128 then [n]
  else if n < 2048 then [192 + n / 64, 128 + n % 64]
  else if n < 65536 then [224 + n / 4096, 128 + n / 64 % 64, 128 + n % 64]
  else [240 + n / 262144, 128 + n / 4096 % 64, 128 + n / 64 % 64, 128 + n % 64]

/-- Characters `URLSearchParams` serialization leaves unescaped. -/
def isFormUnreserved (c : Char) : Bool :=
  c.isAlphanum || c == '*' || c == '-' || c == '.' || c == '_'

/-- `%XX` escape of one byte. -/
def encodeByte (b : Nat) : String :=
  "%" ++ String.mk [hexDigit (b / 16), hexDigit (b % 16)]

/-- Form-urlencoding of one character: unreserved characters pass, a
space becomes `+`, anything else is `%XX`-escaped byte-wise. -/
def encodeFormChar (c : Char) : String :=
  if isFormUnreserved c then String.singleton c
  else if c == ' ' then "+"
  else String.join ((utf8Bytes c.toNat).map encodeByte)

/-- Form-urlencoding of a string (`URLSearchParams` component encoding). -/
def urlencode (s : String) : String :=
  String.join (s.data.map encodeFormChar)

/-- `URLSearchParams.toString()`: `k=v` pairs in insertion order, joined
with `&`, keys and values form-urlencoded. -/
def serializeParams : List (String × String) → String
  | [] => ""
  | [q] => urlencode q.1 ++ "=" ++ urlencode q.2
  | q :: rest => urlencode q.1 ++ "=" ++ urlencode q.2 ++ "&" ++ serializeParams rest

/-- `OAuthConfig` of `utils/oauth.ts` (`loginUrl` optional). -/
structure OAuthConfig where
  clientId : String
  redirectUri : String
  scopes : List String
  loginUrl : Option String
  deriving Repr

/-- `AuthorizationUrlResult` of `utils/oauth.ts`. -/
structure AuthorizationUrlResult where
  url : String
  state : String
  codeVerifier : String
  deriving Repr, DecidableEq

/-- `storeState(state)` of `utils/state.ts`. -/
def storeState (st : Storage) (state : String) : Storage :=
  setItem st "flowsta_oauth_state" state

/-- `buildAuthorizationUrl(config)`: generates a PKCE pair and state
(passed in here, being products of the secure random source), stores the
verifier keyed by the state and the state itself, and builds
`loginUrl + "/login?" + params` with the seven query parameters in
source order. -/
def buildAuthorizationUrl (cfg : OAuthConfig) (verifier challenge state : String)
    (st : Storage) : AuthorizationUrlResult × Storage :=
  let loginUrl := jsOr cfg.loginUrl "https://login.flowsta.com"
  let st1 := storeCodeVerifier st verifier state
  let st2 := storeState st1 state
  let params := [("client_id", cfg.clientId),
    ("redirect_uri", cfg.redirectUri),
    ("response_type", "code"),
    ("scope", String.intercalate " " cfg.scopes),
    ("state", state),
    ("code_challenge", challenge),
    ("code_challenge_method", "S256")]
  (⟨loginUrl ++ "/login?" ++ serializeParams params, state, verifier⟩, st2)

/-- The authorization URL for the spec scenario configuration
`clientId="abc"`, `redirectUri="https://x/cb"`,
`scopes=["openid","email"]`, default login host. -/
def demoUrl (verifier challenge state : String) : String :=
  (buildAuthorizationUrl ⟨"abc", "https://x/cb", ["openid", "email"], none⟩
    verifier challenge state []).1.url

/-! ### Substring search

`strContainsSub s pat` decides whether `pat` occurs as a contiguous
substring of `s` (JS `String.prototype.includes`). -/

/-- `pat` is a prefix of `l`. -/
def listStarts : List Char → List Char → Bool
  | _, [] => true
  | [], _ :: _ => false
  | a :: as, b :: bs => a == b && listStarts as bs

/-- `pat` occurs contiguously somewhere in `l`. -/
def listHasSub : List Char → List Char → Bool
  | [], pat => listStarts [] pat
  | a :: t, pat => listStarts (a :: t) pat || listHasSub t pat

/-- `pat` is a substring of `s`. -/
def strContainsSub (s pat : String) : Bool :=
  listHasSub s.data pat.data

/-! ## Widget lifecycle base (`FlowstaWidget.ts`) -/

/-- `WidgetState`: the lifecycle states of a widget. -/
inductive WidgetState where
  | initializing | ready | loading | error | success | destroyed
  deriving Repr, DecidableEq

/-- Error codes of `WidgetError`. -/
inductive WidgetErrorCode where
  | invalidClientId | originNotAllowed | notAuthenticated
  | apiError | networkError | validationError | unknownError
  deriving Repr, DecidableEq

/-- The JSON body of the client-validation endpoint
(`ClientValidationResponse`). -/
structure ClientValidationResponse where
  valid : Bool
  clientName : String
  allowedOrigins : List String
  deriving Repr, DecidableEq

/-- An HTTP response from the client-validation endpoint (`none` models
a transport failure, i.e. `fetch` itself throwing). -/
structure HttpResp where
  ok : Bool
  status : Nat
  body : ClientValidationResponse
  deriving Repr, DecidableEq

/-- `FlowstaWidget.validateClientId()`: a thrown transport error becomes
`NETWORK_ERROR`; a non-2xx response becomes `ORIGIN_NOT_ALLOWED` (403)
or `INVALID_CLIENT_ID`; a 2xx response is returned as parsed, its
`valid` field not inspected. -/
def validateClientId (resp : Option HttpResp) :
    Except WidgetErrorCode ClientValidationResponse :=
  match resp with
  | none => .error .networkError
  | some r =>
      if r.ok then .ok r.body
      else if r.status == 403 then .error .originNotAllowed
      else .error .invalidClientId

/-- Outcome of a widget `initialize()` run: final lifecycle state,
whether `render()` ran, and the visibility flag. -/
structure InitOutcome where
  life : WidgetState
  rendered : Bool
  visible : Bool
  deriving Repr, DecidableEq

/-- `RecoveryPhraseWidget.initialize()`: validates the client id (the
returned body is discarded), renders, transitions to `ready`, and shows
the widget when `autoShow` is set; a thrown error is handled by
transitioning to `error` without rendering. -/
def rpWidgetInit (resp : Option HttpResp) (autoShow : Bool) : InitOutcome :=
  match validateClientId resp with
  | .error _ => ⟨.error, false, false⟩
  | .ok _ => ⟨.ready, true, autoShow⟩

/-- The `FlowstaWidget` base-class fields `show`/`hide`/`destroy` read
and write: the lifecycle state and the visibility flag. -/
structure WidgetBase where
  state : WidgetState
  isVisible : Bool
  deriving Repr, DecidableEq

/-- `FlowstaWidget.show()`: no-op when already visible; otherwise sets
the visibility flag and transitions the lifecycle state to `ready`. -/
def showWidget (w : WidgetBase) : WidgetBase :=
  if w.isVisible then w else { state := .ready, isVisible := true }

/-- `FlowstaWidget.hide()`: no-op when already hidden; otherwise clears
the visibility flag (the lifecycle state is not touched). -/
def hideWidget (w : WidgetBase) : WidgetBase :=
  if !w.isVisible then w else { w with isVisible := false }

/-- `FlowstaWidget.destroy()`: sets the lifecycle state to `destroyed`,
emits `destroy` and clears the subtree; the visibility flag is not
reset. -/
def destroyWidget (w : WidgetBase) : WidgetBase :=
  { w with state := .destroyed }

/-! ## Recovery-Phrase widget verify step (`RecoveryPhraseWidget.ts`) -/

/-- `RecoveryPhraseStep`. -/
inductive RecoveryPhraseStep where
  | intro | password | display | verify | success
  deriving Repr, DecidableEq

/-- JS `String.prototype.toLowerCase` (a character-wise map; the inputs
here are ASCII words). -/
def jsToLower (s : String) : String :=
  String.mk (s.data.map Char.toLower)

/-- JS `String.prototype.trim`: strips leading and trailing whitespace. -/
def jsTrim (s : String) : String :=
  String.mk (((s.data.dropWhile Char.isWhitespace).reverse.dropWhile
    Char.isWhitespace).reverse)

/-- Splitting a character list at every delimiter character: one segment
per gap, empty segments preserved (JS `String.prototype.split` with a
single-character separator, and Lean `String.split`). -/
def splitChars (p : Char → Bool) : List Char → List String
  | [] => [""]
  | c :: cs =>
      let rest := splitChars p cs
      if p c then "" :: rest
      else
        match rest with
        | [] => [String.singleton c]
        | r :: rs => (String.singleton c ++ r) :: rs

/-- JS `String.prototype.split(sep)` for a one-character separator
predicate. -/
def jsSplit (p : Char → Bool) (s : String) : List String :=
  splitChars p s.data

/-- How one entered verification word is processed before comparison:
`sanitizeText(getInputValue(input)).toLowerCase().trim()`.  The DOMPurify
sanitizer is an external collaborator and is passed in as a function. -/
def processWord (sanitize : String → String) (raw : String) : String :=
  jsTrim (jsToLower (sanitize raw))

/-- Outcome of `handleVerify()`: the step afterwards, the lifecycle
state, whether the server verify call was issued, and the positions of
the inputs flagged with an inline `Incorrect word` error.  (On the crash
path — an out-of-range word index, impossible for server-supplied
indices — the partially flagged inputs are not tracked.) -/
structure VerifyOutcome where
  step : RecoveryPhraseStep
  life : WidgetState
  networkCalled : Bool
  errorIndices : List Nat
  deriving Repr, DecidableEq

/-- `RecoveryPhraseWidget.handleVerify()`: splits the stored phrase on
single spaces, processes each entered word, compares position `i`'s
entry against the phrase word at `verificationIndices[i]`
(lower-cased); any mismatch flags that input and keeps the user on
`verify` without any network call; when all match, the server
verify-recovery-phrase call is issued and on success the widget
advances to `success` (a server failure is caught: `error` state, step
unchanged). -/
def handleVerify (sanitize : String → String) (recoveryPhrase : String)
    (indices : List Nat) (raws : List String) (serverOk : Bool)
    (life0 : WidgetState) : VerifyOutcome :=
  let words := jsSplit (fun c => c == ' ') recoveryPhrase
  let userWords := raws.map (processWord sanitize)
  if indices.any (fun idx => words.length ≤ idx) || raws.length < indices.length then
    -- `words[index].toLowerCase()` (or `updateInput(undefined, …)`) throws;
    -- the surrounding try/catch transitions to `error` without navigating
    ⟨.verify, .error, false, []⟩
  else
    let mismatches := (List.range indices.length).filter (fun i =>
      !((jsToLower (words.getD (indices.getD i 0) "")) == (userWords.getD i "")))
    if !mismatches.isEmpty then
      ⟨.verify, life0, false, mismatches⟩
    else if serverOk then
      ⟨.success, .success, true, []⟩
    else
      ⟨.verify, .error, true, []⟩

/-! ## Account-Recovery widget phrase step (`AccountRecoveryWidget.ts`) -/

/-- `RecoveryStep` of the Account-Recovery widget. -/
inductive RecoveryStep where
  | email | phrase | password | success
  deriving Repr, DecidableEq

/-- JS `String.prototype.split(/\s+/)` for strings with no leading or
trailing whitespace — the only shape reaching the split site, whose
input is `trim()`med first (for `""` JS yields `[""]`): the maximal
whitespace-free runs. -/
def jsSplitWs (s : String) : List String :=
  if s = "" then [""]
  else (jsSplit Char.isWhitespace s).filter (fun w => !(w == ""))

/-- Outcome of the phrase-step verify-button click: the step afterwards,
the lifecycle state, whether the server phrase-verification request was
issued, and any inline validation error shown under the textarea. -/
structure PhraseSubmitOutcome where
  step : RecoveryStep
  life : WidgetState
  networkCalled : Bool
  localError : Option String
  deriving Repr, DecidableEq

/-- The verify-button `onClick` of
`AccountRecoveryWidget.renderPhraseStep` followed by
`verifyRecoveryPhrase`: sanitizes, lower-cases and trims the textarea
value; an empty phrase or a word count other than 24 shows a local
error and never reaches the network; otherwise the server request is
issued, and a rejection keeps the user on `phrase` with an inline
error. -/
def phraseVerifyClick (sanitize : String → String) (raw : String)
    (serverOk : Bool) (life0 : WidgetState) : PhraseSubmitOutcome :=
  let phrase := jsTrim (jsToLower (sanitize raw))
  if phrase = "" then
    ⟨.phrase, life0, false, some "Please enter your recovery phrase"⟩
  else
    let words := jsSplitWs phrase
    if words.length ≠ 24 then
      ⟨.phrase, life0, false,
        some ("Please enter exactly 24 words (you entered "
          ++ toString words.length ++ ")")⟩
    else if serverOk then
      ⟨.password, .ready, true, none⟩
    else
      ⟨.phrase, .error, true,
        some "Invalid recovery phrase. Please check and try again."⟩

/-! ## Email Verification widget resend cooldown
(`EmailVerificationWidget.ts`) -/

/-- The fields of `EmailVerificationWidget` the resend path touches:
the cooldown counter, whether the 1-second cooldown timer is armed
(`resendTimer !== null`), and the lifecycle state. -/
structure EmailVerificationState where
  resendCooldown : Nat
  timerArmed : Bool
  life : WidgetState
  deriving Repr, DecidableEq

/-- `EmailVerificationWidget.handleResendEmail()`: returns immediately
when the cooldown counter is positive (no state change, no request);
otherwise issues the resend request; on success starts the cooldown at
`widgetOptions.resendCooldown || 60` and returns to `ready`; on failure
transitions to `error` without starting the cooldown.  The second
component records whether the network request was issued. -/
def handleResendEmail (cfgResendCooldown : Option Nat) (netOk : Bool)
    (s : EmailVerificationState) : EmailVerificationState × Bool :=
  if 0 < s.resendCooldown then (s, false)
  else if netOk then
    let secs := match cfgResendCooldown with
      | some n => if n = 0 then 60 else n
      | none => 60
    (⟨secs, true, .ready⟩, true)
  else ({ s with life := .error }, true)

/-- One tick of the interval started by `startResendCooldown`: decrement
the counter; at zero, `stopResendCooldown` clears the timer and pins the
counter to 0.  A tick with no armed timer is a no-op. -/
def cooldownTick (s : EmailVerificationState) : EmailVerificationState :=
  if !s.timerArmed then s
  else
    let c := s.resendCooldown - 1
    if c = 0 then { s with resendCooldown := 0, timerArmed := false }
    else { s with resendCooldown := c }

/-! ## Security Dashboard score (`SecurityDashboardWidget.ts`) -/

/-- The `recoveryPhrase` component of `SecurityStatus`. -/
structure SecurityRecoveryPhrase where
  active : Bool
  verified : Bool
  setupDate : Option String
  deriving Repr, DecidableEq

/-- `SecurityStatus` as assembled by `fetchSecurityStatus`. -/
structure SecurityStatus where
  recoveryPhrase : SecurityRecoveryPhrase
  emailVerified : Bool
  email : String
  lastPasswordChange : Option String
  deriving Repr, DecidableEq

/-- `SecurityDashboardWidget.calculateSecurityScore()`: 0 when no status
is loaded; otherwise 30 for a verified email, 30 for an active recovery
phrase, 10 more for a verified one, plus a flat 30 for password recency
(placeholder), capped at 100. -/
def calculateSecurityScore (s : Option SecurityStatus) : Int :=
  match s with
  | none => 0
  | some st =>
      let score : Int :=
        (if st.emailVerified then 30 else 0)
        + (if st.recoveryPhrase.active then 30 else 0)
        + (if st.recoveryPhrase.verified then 10 else 0)
        + 30
      min score 100

/-! ## Event emitter (`SimpleEventEmitter`)

A listener either returns or throws; `emit` wraps each invocation in a
`try`/`catch` that logs the error, so no listener failure escapes
`emit` or stops the iteration.  The embedding makes the control flow
explicit: `emit` is total and returns the per-listener outcome list
(`none` = returned normally, `some e` = threw `e`, caught). -/

/-- A registered event listener: returns or throws. -/
def Listener (α : Type) := α → Except String Unit

/-- The `try listener(event) catch (error) log` body of `emit`'s loop. -/
def caughtResult {α : Type} (l : Listener α) (p : α) : Option String :=
  match l p with
  | .ok _ => none
  | .error e => some e

/-- `emit`'s `forEach` loop: every listener is invoked, in order, with
the same payload, each under its own `try`/`catch`. -/
def runListeners {α : Type} : List (Listener α) → α → List (Option String)
  | [], _ => []
  | l :: ls, p => caughtResult l p :: runListeners ls p

/-- The per-instance listener registry: event name to listener list. -/
def Emitter (α : Type) := List (String × List (Listener α))

/-- `this.listeners.get(eventName)`. -/
def lookupListeners {α : Type} (em : Emitter α) (ev : String) :
    Option (List (Listener α)) :=
  (List.find? (fun q => q.1 == ev) em).map (fun q => q.2)

/-- `SimpleEventEmitter.emit(eventName, data)`: no-op when no listeners
are registered for the event; otherwise runs every registered listener
on the payload, catching each listener's exception individually. -/
def emit {α : Type} (em : Emitter α) (ev : String) (p : α) : List (Option String) :=
  match lookupListeners em ev with
  | none => []
  | some ls => runListeners ls p

/-! # Theorems -/

/-! ### Storage lemmas -/

theorem getItem_setItem_self (st : Storage) (k v : String) :
    getItem (setItem st k v) k = some v := by
  simp [getItem, setItem, List.find?]

theorem getItem_removeItem_self (st : Storage) (k : String) :
    getItem (removeItem st k) k = none := by
  induction st with
  | nil => rfl
  | cons p t ih =>
      by_cases h : p.1 = k
      · have hb : (p.1 == k) = true := by simpa using h
        simp only [removeItem, List.filter, hb, Bool.not_true]
        exact ih
      · have hb : (p.1 == k) = false := by simpa using h
        simp only [removeItem, List.filter, hb, Bool.not_false, getItem, List.find?]
        simp only [getItem, removeItem] at ih
        simp [hb, ih]

theorem getItem_removeItem_ne (st : Storage) (k k' : String) (h : k' ≠ k) :
    getItem (removeItem st k) k' = getItem st k' := by
  induction st with
  | nil => rfl
  | cons p t ih =>
      by_cases hp : p.1 = k
      · have hb : (p.1 == k) = true := by simpa using hp
        have hb' : (p.1 == k') = false := by
          simp only [beq_eq_false_iff_ne, ne_eq, hp]
          exact fun hc => h hc.symm
        simp only [removeItem, List.filter, hb, Bool.not_true]
        simp only [getItem, List.find?, hb']
        simpa [getItem, removeItem] using ih
      · have hb : (p.1 == k) = false := by simpa using hp
        simp only [removeItem, List.filter, hb, Bool.not_false]
        by_cases hp' : p.1 = k'
        · have hb' : (p.1 == k') = true := by simpa using hp'
          simp [getItem, List.find?, hb']
        · have hb' : (p.1 == k') = false := by simpa using hp'
          simp only [getItem, List.find?, hb']
          simpa [getItem, removeItem] using ih

theorem getItem_setItem_ne (st : Storage) (k k' v : String) (h : k' ≠ k) :
    getItem (setItem st k v) k' = getItem st k' := by
  have hb : (k == k') = false := by
    simp only [beq_eq_false_iff_ne, ne_eq]
    exact fun hc => h hc.symm
  simp only [setItem, getItem, List.find?, hb]
  simpa [getItem] using getItem_removeItem_ne st k k' h


theorem loginStore_state (st : Storage) (v s : String) :
    getItem (loginStore st v s) "flowsta_state" = some s :=
  getItem_setItem_self _ _ _

theorem loginStore_verifier (st : Storage) (v s : String) :
    getItem (loginStore st v s) "flowsta_code_verifier" = some v := by
  unfold loginStore
  rw [getItem_setItem_ne _ _ _ _ (by decide)]
  exact getItem_setItem_self _ _ _

/-- C1: the state/verifier correlation entry is single-use.  After
`login` stores the fresh state and verifier, a callback with the exact
returned state and a matching code succeeds, and both correlation
entries are gone from the store; running the callback again with the
same state fails with the CSRF validation error.  Equivalently for the
keyed correlation store of `utils/pkce.ts`: the first
`retrieveCodeVerifier` read for a state returns the stored verifier and
deletes the entry, and a second read for the same state returns
nothing. -/
theorem correlation_entry_single_use
    (cfg : AuthConfig) (st0 : Storage) (verifier state code : String)
    (net : NetOracle)
    (hv : verifier ≠ "") (hs : state ≠ "") (hc : code ≠ "")
    (ht : net.tokenOk = true) (hu : net.userOk = true)
    (st2 : Storage) (v2 s2 : String) (hv2 : v2 ≠ "") :
    (handleCallback cfg ⟨none, none, some code, some state⟩ net
        (loginStore st0 verifier state)).result
      = .ok ⟨net.userId, net.userEmail, net.userDisplayName⟩ ∧
    getItem (handleCallback cfg ⟨none, none, some code, some state⟩ net
        (loginStore st0 verifier state)).store "flowsta_state" = none ∧
    getItem (handleCallback cfg ⟨none, none, some code, some state⟩ net
        (loginStore st0 verifier state)).store "flowsta_code_verifier" = none ∧
    (handleCallback cfg ⟨none, none, some code, some state⟩ net
        (handleCallback cfg ⟨none, none, some code, some state⟩ net
          (loginStore st0 verifier state)).store).result
      = .error .csrfFailed ∧
    (retrieveCodeVerifier (storeCodeVerifier st2 v2 s2) s2).1 = some v2 ∧
    (retrieveCodeVerifier
        (retrieveCodeVerifier (storeCodeVerifier st2 v2 s2) s2).2 s2).1 = none := by
  have hcb : (code == "") = false := by simpa using hc
  have hsb : (state == "") = false := by simpa using hs
  have hvb : (verifier == "") = false := by simpa using hv
  have h1 : getItem (loginStore st0 verifier state) "flowsta_state" = some state :=
    loginStore_state _ _ _
  have h2 : getItem (loginStore st0 verifier state) "flowsta_code_verifier"
      = some verifier := loginStore_verifier _ _ _
  have hrun : handleCallback cfg ⟨none, none, some code, some state⟩ net
      (loginStore st0 verifier state)
      = ⟨.ok ⟨net.userId, net.userEmail, net.userDisplayName⟩,
          removeItem (removeItem (loginStore st0 verifier state)
            "flowsta_code_verifier") "flowsta_state",
          some ⟨code, cfg.redirectUri, cfg.clientId, verifier⟩⟩ := by
    simp [handleCallback, jsTruthy, h1, h2, hcb, hsb, hvb, ht, hu]
  have hstate2 : getItem (removeItem (removeItem (loginStore st0 verifier state)
      "flowsta_code_verifier") "flowsta_state") "flowsta_state" = none :=
    getItem_removeItem_self _ _
  have hver2 : getItem (removeItem (removeItem (loginStore st0 verifier state)
      "flowsta_code_verifier") "flowsta_state") "flowsta_code_verifier" = none := by
    rw [getItem_removeItem_ne _ _ _ (by decide)]
    exact getItem_removeItem_self _ _
  refine ⟨by rw [hrun], by rw [hrun]; exact hstate2, by rw [hrun]; exact hver2, ?_, ?_, ?_⟩
  · rw [hrun]
    simp [handleCallback, jsTruthy, hcb, hsb, hstate2]
  · have hv2b : (v2 == "") = false := by simpa using hv2
    simp [retrieveCodeVerifier, storeCodeVerifier, getItem_setItem_self, hv2b]
  · have hv2b : (v2 == "") = false := by simpa using hv2
    simp [retrieveCodeVerifier, storeCodeVerifier, getItem_setItem_self, hv2b,
      getItem_removeItem_self]

/-- Witness for `correlation_entry_single_use` at concrete inputs. -/
theorem correlation_entry_single_use_witness :
    (handleCallback ⟨"abc", "https://x/cb"⟩ ⟨none, none, some "c0", some "s0"⟩
        ⟨true, none, "tok", none, true, "u1", none, none⟩
        (loginStore [] "v0" "s0")).result = .ok ⟨"u1", none, none⟩ ∧
    (retrieveCodeVerifier (storeCodeVerifier [] "v2" "s2") "s2").1 = some "v2" := by
  have h := correlation_entry_single_use ⟨"abc", "https://x/cb"⟩ [] "v0" "s0" "c0"
    ⟨true, none, "tok", none, true, "u1", none, none⟩
    (by decide) (by decide) (by decide) rfl rfl [] "v2" "s2" (by decide)
  exact ⟨h.1, h.2.2.2.2.1⟩

/-- C2: `handleCallback` validates in source order, each check before
any network request: a (truthy) `error` parameter wins and carries the
provider description; then a missing `code`; then a missing or
mismatching `state` (compared with the stored value, before any network
call); then a missing stored verifier; only when all four checks pass is
the token-exchange request issued, with the code, redirect URI, client
id and stored verifier. -/
theorem handleCallback_validation_order
    (cfg : AuthConfig) (p : CallbackParams) (net : NetOracle) (st : Storage) :
    (∀ e, p.error = some e → e ≠ "" →
      (handleCallback cfg p net st).result
          = .error (.oauthDenied (jsOr p.errorDescription e)) ∧
      (handleCallback cfg p net st).tokenRequest = none) ∧
    (jsTruthy p.error = false → jsTruthy p.code = false →
      (handleCallback cfg p net st).result = .error .missingCode ∧
      (handleCallback cfg p net st).tokenRequest = none) ∧
    (jsTruthy p.error = false → jsTruthy p.code = true →
      (jsTruthy p.state = false ∨ getItem st "flowsta_state" ≠ p.state) →
      (handleCallback cfg p net st).result = .error .csrfFailed ∧
      (handleCallback cfg p net st).tokenRequest = none) ∧
    (jsTruthy p.error = false → jsTruthy p.code = true →
      jsTruthy p.state = true → getItem st "flowsta_state" = p.state →
      jsTruthy (getItem st "flowsta_code_verifier") = false →
      (handleCallback cfg p net st).result = .error .missingVerifier ∧
      (handleCallback cfg p net st).tokenRequest = none) ∧
    (jsTruthy p.error = false → jsTruthy p.code = true →
      jsTruthy p.state = true → getItem st "flowsta_state" = p.state →
      jsTruthy (getItem st "flowsta_code_verifier") = true →
      (handleCallback cfg p net st).tokenRequest
        = some ⟨p.code.getD "", cfg.redirectUri, cfg.clientId,
            (getItem st "flowsta_code_verifier").getD ""⟩) := by
  refine ⟨?_, ?_, ?_, ?_, ?_⟩
  · intro e he hne
    have hbe : (e == "") = false := by simpa using hne
    simp [handleCallback, he, jsTruthy, hbe]
  · intro h1 h2
    simp [handleCallback, h1, h2]
  · intro h1 h2 h3
    rcases h3 with h3 | h3
    · simp [handleCallback, h1, h2, h3]
    · have hb : (getItem st "flowsta_state" == p.state) = false := by
        simpa using h3
      simp [handleCallback, h1, h2, hb]
  · intro h1 h2 h3 h4 h5
    have hb : (getItem st "flowsta_state" == p.state) = true := by simpa using h4
    simp [handleCallback, h1, h2, h3, hb, h5]
  · intro h1 h2 h3 h4 h5
    have hb : (getItem st "flowsta_state" == p.state) = true := by simpa using h4
    rcases hn1 : net.tokenOk with _ | _ <;>
      rcases hn2 : net.userOk with _ | _ <;>
        simp [handleCallback, h1, h2, h3, hb, h5, hn1, hn2]

/-- Witness for `handleCallback_validation_order`: each of the five
branches exercised at a concrete input. -/
theorem handleCallback_validation_order_witness :
    (handleCallback ⟨"abc", "https://x/cb"⟩
        ⟨some "access_denied", some "User denied", some "c", some "s"⟩
        ⟨true, none, "t", none, true, "u", none, none⟩ []).result
      = .error (.oauthDenied "User denied") ∧
    (handleCallback ⟨"abc", "https://x/cb"⟩ ⟨none, none, none, some "s"⟩
        ⟨true, none, "t", none, true, "u", none, none⟩ []).result
      = .error .missingCode ∧
    (handleCallback ⟨"abc", "https://x/cb"⟩ ⟨none, none, some "c", some "s"⟩
        ⟨true, none, "t", none, true, "u", none, none⟩ []).result
      = .error .csrfFailed ∧
    (handleCallback ⟨"abc", "https://x/cb"⟩ ⟨none, none, some "c", some "s"⟩
        ⟨true, none, "t", none, true, "u", none, none⟩
        [("flowsta_state", "s")]).result = .error .missingVerifier ∧
    (handleCallback ⟨"abc", "https://x/cb"⟩ ⟨none, none, some "c", some "s"⟩
        ⟨true, none, "t", none, true, "u", none, none⟩
        [("flowsta_state", "s"), ("flowsta_code_verifier", "v")]).tokenRequest
      = some ⟨"c", "https://x/cb", "abc", "v"⟩ := by
  refine ⟨?_, ?_, ?_, ?_, ?_⟩
  · exact ((handleCallback_validation_order ⟨"abc", "https://x/cb"⟩
      ⟨some "access_denied", some "User denied", some "c", some "s"⟩
      ⟨true, none, "t", none, true, "u", none, none⟩ []).1
        "access_denied" rfl (by decide)).1
  · exact ((handleCallback_validation_order ⟨"abc", "https://x/cb"⟩
      ⟨none, none, none, some "s"⟩
      ⟨true, none, "t", none, true, "u", none, none⟩ []).2.1 rfl rfl).1
  · exact ((handleCallback_validation_order ⟨"abc", "https://x/cb"⟩
      ⟨none, none, some "c", some "s"⟩
      ⟨true, none, "t", none, true, "u", none, none⟩ []).2.2.1 rfl rfl
        (Or.inr (by decide))).1
  · exact ((handleCallback_validation_order ⟨"abc", "https://x/cb"⟩
      ⟨none, none, some "c", some "s"⟩
      ⟨true, none, "t", none, true, "u", none, none⟩
      [("flowsta_state", "s")]).2.2.2.1 rfl rfl rfl (by decide) (by decide)).1
  · exact (handleCallback_validation_order ⟨"abc", "https://x/cb"⟩
      ⟨none, none, some "c", some "s"⟩
      ⟨true, none, "t", none, true, "u", none, none⟩
      [("flowsta_state", "s"), ("flowsta_code_verifier", "v")]).2.2.2.2 rfl rfl
        rfl (by decide) (by decide)

/-! ### Substring lemmas -/

theorem listStarts_append {l pat : List Char} (l₂ : List Char)
    (h : listStarts l pat = true) : listStarts (l ++ l₂) pat = true := by
  induction pat generalizing l with
  | nil => simp [listStarts]
  | cons b bs ih =>
      cases l with
      | nil => simp [listStarts] at h
      | cons a as =>
          simp only [List.cons_append, listStarts, Bool.and_eq_true] at h ⊢
          exact ⟨h.1, ih h.2⟩

theorem listHasSub_nil (l : List Char) : listHasSub l [] = true := by
  cases l <;> simp [listHasSub, listStarts]

theorem listHasSub_append_left {l₁ pat : List Char} (l₂ : List Char)
    (h : listHasSub l₁ pat = true) : listHasSub (l₁ ++ l₂) pat = true := by
  induction l₁ with
  | nil =>
      cases pat with
      | nil => exact listHasSub_nil _
      | cons b bs => simp [listHasSub, listStarts] at h
  | cons a t ih =>
      simp only [listHasSub, Bool.or_eq_true] at h
      rcases h with h | h
      · simp only [List.cons_append, listHasSub, Bool.or_eq_true]
        exact Or.inl (by simpa using listStarts_append l₂ h)
      · simp only [List.cons_append, listHasSub, Bool.or_eq_true]
        exact Or.inr (ih h)

theorem listHasSub_append_right {l₂ pat : List Char} (l₁ : List Char)
    (h : listHasSub l₂ pat = true) : listHasSub (l₁ ++ l₂) pat = true := by
  induction l₁ with
  | nil => simpa using h
  | cons a t ih =>
      simp only [List.cons_append, listHasSub, Bool.or_eq_true]
      exact Or.inr ih

theorem strContainsSub_append_left (s t pat : String)
    (h : strContainsSub s pat = true) : strContainsSub (s ++ t) pat = true := by
  have hd : (s ++ t).data = s.data ++ t.data := rfl
  unfold strContainsSub at h ⊢
  rw [hd]
  exact listHasSub_append_left _ h

theorem strContainsSub_append_right (s t pat : String)
    (h : strContainsSub t pat = true) : strContainsSub (s ++ t) pat = true := by
  have hd : (s ++ t).data = s.data ++ t.data := rfl
  unfold strContainsSub at h ⊢
  rw [hd]
  exact listHasSub_append_right _ h

theorem merge_lit (a b c : String) (h : a ++ b = c) (r : String) :
    a ++ (b ++ r) = c ++ r := by
  rw [← h]
  apply String.ext
  simp [List.append_assoc]

theorem demoUrl_eq (v ch s : String) :
    demoUrl v ch s
      = "https://login.flowsta.com/login?client_id=abc&redirect_uri=https%3A%2F%2Fx%2Fcb&response_type=code&scope=openid+email&state="
        ++ (urlencode s
        ++ ("&code_challenge=" ++ (urlencode ch ++ "&code_challenge_method=S256"))) := by
  dsimp only [demoUrl, buildAuthorizationUrl, serializeParams, jsOr, storeState,
    storeCodeVerifier, setItem, removeItem]
  rw [show String.intercalate " " ["openid", "email"] = "openid email" from rfl]
  simp only [String.append_assoc]
  rw [merge_lit "https://login.flowsta.com" "/login?"
    "https://login.flowsta.com/login?" rfl]
  rw [merge_lit "https://login.flowsta.com/login?" (urlencode "client_id")
    "https://login.flowsta.com/login?client_id" rfl]
  rw [merge_lit "https://login.flowsta.com/login?client_id" "="
    "https://login.flowsta.com/login?client_id=" rfl]
  rw [merge_lit "https://login.flowsta.com/login?client_id=" (urlencode "abc")
    "https://login.flowsta.com/login?client_id=abc" rfl]
  rw [merge_lit "https://login.flowsta.com/login?client_id=abc" "&"
    "https://login.flowsta.com/login?client_id=abc&" rfl]
  rw [merge_lit "https://login.flowsta.com/login?client_id=abc&"
    (urlencode "redirect_uri")
    "https://login.flowsta.com/login?client_id=abc&redirect_uri" rfl]
  rw [merge_lit "https://login.flowsta.com/login?client_id=abc&redirect_uri" "="
    "https://login.flowsta.com/login?client_id=abc&redirect_uri=" rfl]
  rw [merge_lit "https://login.flowsta.com/login?client_id=abc&redirect_uri="
    (urlencode "https://x/cb")
    "https://login.flowsta.com/login?client_id=abc&redirect_uri=https%3A%2F%2Fx%2Fcb" rfl]
  rw [merge_lit
    "https://login.flowsta.com/login?client_id=abc&redirect_uri=https%3A%2F%2Fx%2Fcb"
    "&"
    "https://login.flowsta.com/login?client_id=abc&redirect_uri=https%3A%2F%2Fx%2Fcb&" rfl]
  rw [merge_lit
    "https://login.flowsta.com/login?client_id=abc&redirect_uri=https%3A%2F%2Fx%2Fcb&"
    (urlencode "response_type")
    "https://login.flowsta.com/login?client_id=abc&redirect_uri=https%3A%2F%2Fx%2Fcb&response_type" rfl]
  rw [merge_lit
    "https://login.flowsta.com/login?client_id=abc&redirect_uri=https%3A%2F%2Fx%2Fcb&response_type"
    "="
    "https://login.flowsta.com/login?client_id=abc&redirect_uri=https%3A%2F%2Fx%2Fcb&response_type=" rfl]
  rw [merge_lit
    "https://login.flowsta.com/login?client_id=abc&redirect_uri=https%3A%2F%2Fx%2Fcb&response_type="
    (urlencode "code")
    "https://login.flowsta.com/login?client_id=abc&redirect_uri=https%3A%2F%2Fx%2Fcb&response_type=code" rfl]
  rw [merge_lit
    "https://login.flowsta.com/login?client_id=abc&redirect_uri=https%3A%2F%2Fx%2Fcb&response_type=code"
    "&"
    "https://login.flowsta.com/login?client_id=abc&redirect_uri=https%3A%2F%2Fx%2Fcb&response_type=code&" rfl]
  rw [merge_lit
    "https://login.flowsta.com/login?client_id=abc&redirect_uri=https%3A%2F%2Fx%2Fcb&response_type=code&"
    (urlencode "scope")
    "https://login.flowsta.com/login?client_id=abc&redirect_uri=https%3A%2F%2Fx%2Fcb&response_type=code&scope" rfl]
  rw [merge_lit
    "https://login.flowsta.com/login?client_id=abc&redirect_uri=https%3A%2F%2Fx%2Fcb&response_type=code&scope"
    "="
    "https://login.flowsta.com/login?client_id=abc&redirect_uri=https%3A%2F%2Fx%2Fcb&response_type=code&scope=" rfl]
  rw [merge_lit
    "https://login.flowsta.com/login?client_id=abc&redirect_uri=https%3A%2F%2Fx%2Fcb&response_type=code&scope="
    (urlencode "openid email")
    "https://login.flowsta.com/login?client_id=abc&redirect_uri=https%3A%2F%2Fx%2Fcb&response_type=code&scope=openid+email" rfl]
  rw [merge_lit
    "https://login.flowsta.com/login?client_id=abc&redirect_uri=https%3A%2F%2Fx%2Fcb&response_type=code&scope=openid+email"
    "&"
    "https://login.flowsta.com/login?client_id=abc&redirect_uri=https%3A%2F%2Fx%2Fcb&response_type=code&scope=openid+email&" rfl]
  rw [merge_lit
    "https://login.flowsta.com/login?client_id=abc&redirect_uri=https%3A%2F%2Fx%2Fcb&response_type=code&scope=openid+email&"
    (urlencode "state")
    "https://login.flowsta.com/login?client_id=abc&redirect_uri=https%3A%2F%2Fx%2Fcb&response_type=code&scope=openid+email&state" rfl]
  rw [merge_lit
    "https://login.flowsta.com/login?client_id=abc&redirect_uri=https%3A%2F%2Fx%2Fcb&response_type=code&scope=openid+email&state"
    "="
    "https://login.flowsta.com/login?client_id=abc&redirect_uri=https%3A%2F%2Fx%2Fcb&response_type=code&scope=openid+email&state=" rfl]
  rw [merge_lit "&" (urlencode "code_challenge") "&code_challenge" rfl]
  rw [merge_lit "&code_challenge" "=" "&code_challenge=" rfl]
  rw [merge_lit "&" (urlencode "code_challenge_method") "&code_challenge_method" rfl]
  rw [merge_lit "&code_challenge_method" "=" "&code_challenge_method=" rfl]
  rw [show "&code_challenge_method=" ++ urlencode "S256"
    = "&code_challenge_method=S256" from rfl]



/-- C3 counterexample: for the configuration `clientId="abc"`,
`redirectUri="https://x/cb"`, `scopes=["openid","email"]` and a concrete
generated state and challenge, the authorization URL does not contain
the substring `scope=openid%20email` — `URLSearchParams` serialization
encodes the space of the joined scope list as `+`, not `%20`. -/
theorem scope_percent20_absent :
    strContainsSub (demoUrl "testverifier" "testchallenge" "teststate")
      "scope=openid%20email" = false := by decide

/-- C3 (amended): for the configuration `clientId="abc"`,
`redirectUri="https://x/cb"`, `scopes=["openid","email"]` and any
generated state and challenge, the authorization URL contains the
substrings `client_id=abc`, `response_type=code`,
`code_challenge_method=S256` and `scope=openid+email` (the space of the
space-joined scope list is form-encoded as `+`). -/
theorem buildAuthorizationUrl_url_params (v ch s : String) :
    strContainsSub (demoUrl v ch s) "client_id=abc" = true ∧
    strContainsSub (demoUrl v ch s) "response_type=code" = true ∧
    strContainsSub (demoUrl v ch s) "code_challenge_method=S256" = true ∧
    strContainsSub (demoUrl v ch s) "scope=openid+email" = true := by
  rw [demoUrl_eq]
  refine ⟨?_, ?_, ?_, ?_⟩
  · exact strContainsSub_append_left _ _ _ (by decide)
  · exact strContainsSub_append_left _ _ _ (by decide)
  · refine strContainsSub_append_right _ _ _ ?_
    refine strContainsSub_append_right _ _ _ ?_
    refine strContainsSub_append_right _ _ _ ?_
    refine strContainsSub_append_right _ _ _ ?_
    decide
  · exact strContainsSub_append_left _ _ _ (by decide)


/-- C4 (evaluating the code at the failing input): when the
client-validation endpoint answers 2xx with body `valid: false`, the
widget's `initialize()` nevertheless reaches lifecycle state `ready`
and invokes `render()` — `validateClientId` returns the parsed body
without inspecting its `valid` field, so the spec-required transition
to `error` never happens. -/
theorem rpWidgetInit_accepts_invalid_client :
    rpWidgetInit (some ⟨true, 200, ⟨false, "Test Client", []⟩⟩) false
      = ⟨.ready, true, false⟩ ∧
    validateClientId (some ⟨true, 200, ⟨false, "Test Client", []⟩⟩)
      = .ok ⟨false, "Test Client", []⟩ := by
  exact ⟨rfl, rfl⟩

/-- C5 counterexample: `destroyed` is not terminal.  A widget that is
destroyed while hidden (`destroy()` does not reset the visibility
flag, and `show()` only checks visibility) is moved from `destroyed`
back to `ready` by a subsequent `show()`. -/
theorem destroyed_escaped_by_show :
    (showWidget (destroyWidget ⟨.ready, false⟩)).state = .ready ∧
    (showWidget (destroyWidget ⟨.ready, false⟩)).state ≠ .destroyed := by
  exact ⟨rfl, by decide⟩

/-- C5 (amended): after `destroy()` the lifecycle state is `destroyed`
and stays `destroyed` under `hide()` and under `show()` while the
widget is visible; but `show()` on a non-visible destroyed widget
moves the state back to `ready` (the spec declares post-destroy calls
a caller error). -/
theorem destroyWidget_terminal_except_hidden_show (w : WidgetBase) :
    (destroyWidget w).state = .destroyed ∧
    (hideWidget (destroyWidget w)).state = .destroyed ∧
    (w.isVisible = true → (showWidget (destroyWidget w)).state = .destroyed) ∧
    (w.isVisible = false → (showWidget (destroyWidget w)).state = .ready) := by
  refine ⟨rfl, ?_, ?_, ?_⟩
  · unfold hideWidget destroyWidget
    rcases h : w.isVisible <;> simp [h]
  · intro h
    simp [showWidget, destroyWidget, h]
  · intro h
    simp [showWidget, destroyWidget, h]

/-- Witness for `destroyWidget_terminal_except_hidden_show` at the two
concrete visibility values. -/
theorem destroyWidget_terminal_except_hidden_show_witness :
    (showWidget (destroyWidget ⟨.ready, true⟩)).state = .destroyed ∧
    (showWidget (destroyWidget ⟨.loading, false⟩)).state = .ready := by
  exact ⟨(destroyWidget_terminal_except_hidden_show ⟨.ready, true⟩).2.2.1 rfl,
    (destroyWidget_terminal_except_hidden_show ⟨.loading, false⟩).2.2.2 rfl⟩

/-- C9: the security score is always within `[0, 100]` — the weighted
sum saturates at 100 and never goes negative — and it is monotone in
the verified factors: flipping any one of `emailVerified`,
`recoveryPhrase.active` or `recoveryPhrase.verified` from `false` to
`true`, the others fixed, never decreases the score. -/
theorem calculateSecurityScore_bounded_monotone :
    (∀ s : Option SecurityStatus,
      0 ≤ calculateSecurityScore s ∧ calculateSecurityScore s ≤ 100) ∧
    (∀ st : SecurityStatus,
      calculateSecurityScore (some st)
        ≤ calculateSecurityScore (some { st with emailVerified := true }) ∧
      calculateSecurityScore (some st)
        ≤ calculateSecurityScore
            (some { st with recoveryPhrase := { st.recoveryPhrase with active := true } }) ∧
      calculateSecurityScore (some st)
        ≤ calculateSecurityScore
            (some { st with recoveryPhrase := { st.recoveryPhrase with verified := true } })) := by
  constructor
  · intro s
    match s with
    | none => exact ⟨le_refl 0, by norm_num [calculateSecurityScore]⟩
    | some st =>
        unfold calculateSecurityScore
        constructor
        · apply le_min
          · split_ifs <;> norm_num
          · norm_num
        · exact min_le_right _ _
  · intro st
    unfold calculateSecurityScore
    refine ⟨?_, ?_, ?_⟩ <;>
      · dsimp only
        apply min_le_min _ (le_refl (100 : Int))
        split_ifs <;> try norm_num
        all_goals simp_all


theorem mapProcess_getD (sanitize : String → String) (raws : List String)
    (i : Nat) (hi : i < raws.length) :
    (raws.map (processWord sanitize)).getD i ""
      = processWord sanitize (raws.getD i "") := by
  simp [List.getD_eq_getElem?_getD, List.getElem?_map, List.getElem?_eq_getElem hi]

/-- C6: the Recovery-Phrase verify step advances to `success` exactly
when every sampled index's entered word (sanitized, lower-cased,
trimmed) equals the lower-cased word at that index of the displayed
phrase and the server verify call succeeds; a single mismatch keeps
`currentStep` at `verify`, flags inline errors, and issues no network
request at all. -/
theorem handleVerify_success_iff
    (sanitize : String → String) (phrase : String) (indices : List Nat)
    (raws : List String) (serverOk : Bool) (life0 : WidgetState)
    (hidx : ∀ idx ∈ indices, idx < (jsSplit (fun c => c == ' ') phrase).length)
    (hlen : raws.length = indices.length) :
    ((handleVerify sanitize phrase indices raws serverOk life0).step
        = .success ↔
      ((∀ i, i < indices.length →
          processWord sanitize (raws.getD i "")
            = jsToLower ((jsSplit (fun c => c == ' ') phrase).getD (indices.getD i 0) ""))
        ∧ serverOk = true)) ∧
    ((∃ i, i < indices.length ∧
        processWord sanitize (raws.getD i "")
          ≠ jsToLower ((jsSplit (fun c => c == ' ') phrase).getD (indices.getD i 0) "")) →
      (handleVerify sanitize phrase indices raws serverOk life0).networkCalled
          = false ∧
      (handleVerify sanitize phrase indices raws serverOk life0).step = .verify ∧
      (handleVerify sanitize phrase indices raws serverOk life0).errorIndices
          ≠ []) := by
  have hg1 : (indices.any
      (fun idx => (jsSplit (fun c => c == ' ') phrase).length ≤ idx)) = false := by
    by_contra h
    rw [Bool.not_eq_false, List.any_eq_true] at h
    obtain ⟨x, hx, hle⟩ := h
    simp only [decide_eq_true_eq] at hle
    exact absurd (hidx x hx) (not_lt.mpr hle)
  have hg2 : decide (raws.length < indices.length) = false := by simp [hlen]
  have hiff : ((List.range indices.length).filter (fun i =>
        !((jsToLower ((jsSplit (fun c => c == ' ') phrase).getD (indices.getD i 0) ""))
          == ((raws.map (processWord sanitize)).getD i ""))) = [])
      ↔ (∀ i, i < indices.length →
          processWord sanitize (raws.getD i "")
            = jsToLower ((jsSplit (fun c => c == ' ') phrase).getD (indices.getD i 0) "")) := by
    rw [List.filter_eq_nil_iff]
    constructor
    · intro h i hi
      have hm := h i (List.mem_range.mpr hi)
      rw [mapProcess_getD sanitize raws i (by omega)] at hm
      simp only [Bool.not_eq_true', beq_eq_false_iff_ne, ne_eq, not_not] at hm
      exact hm.symm
    · intro h i hi
      rw [List.mem_range] at hi
      rw [mapProcess_getD sanitize raws i (by omega)]
      simp only [Bool.not_eq_true', beq_eq_false_iff_ne, ne_eq, not_not]
      exact (h i hi).symm
  cases hm : (List.range indices.length).filter (fun i =>
      !((jsToLower ((jsSplit (fun c => c == ' ') phrase).getD (indices.getD i 0) ""))
        == ((raws.map (processWord sanitize)).getD i ""))) with
  | nil =>
      have hAll := hiff.mp hm
      constructor
      · cases serverOk with
        | false =>
            have hout : handleVerify sanitize phrase indices raws false life0
                = ⟨.verify, .error, true, []⟩ := by
              simp only [handleVerify, hg1, hg2, hm, Bool.or_false,
                Bool.false_or, List.isEmpty_nil, Bool.not_true, Bool.not_false]
              simp
            rw [hout]
            constructor
            · intro hstep
              exact absurd hstep (by decide)
            · rintro ⟨-, htrue⟩
              cases htrue
        | true =>
            have hout : handleVerify sanitize phrase indices raws true life0
                = ⟨.success, .success, true, []⟩ := by
              simp only [handleVerify, hg1, hg2, hm, Bool.or_false,
                Bool.false_or, List.isEmpty_nil, Bool.not_true, Bool.not_false]
              simp
            rw [hout]
            exact ⟨fun _ => ⟨hAll, rfl⟩, fun _ => rfl⟩
      · rintro ⟨i, hi, hne⟩
        exact absurd (hAll i hi) hne
  | cons a t =>
      have hNotAll : ¬ (∀ i, i < indices.length →
          processWord sanitize (raws.getD i "")
            = jsToLower ((jsSplit (fun c => c == ' ') phrase).getD (indices.getD i 0) "")) := by
        intro hAll
        rw [← hiff] at hAll
        rw [hm] at hAll
        exact List.cons_ne_nil a t hAll
      have hout : handleVerify sanitize phrase indices raws serverOk life0
          = ⟨.verify, life0, false, a :: t⟩ := by
        simp only [handleVerify, hg1, hg2, hm, Bool.or_false, Bool.false_or,
          List.isEmpty_cons, Bool.not_false, Bool.not_true]
        simp
      rw [hout]
      constructor
      · constructor
        · intro hstep
          simp at hstep
        · rintro ⟨hAll, -⟩
          exact absurd hAll hNotAll
      · intro _
        exact ⟨rfl, rfl, by simp⟩

/-- Witness for `handleVerify_success_iff`: phrase `"alpha beta gamma"`,
sampled indices `[2, 0]`, inputs `"  Gamma "` and `"alpha"`, identity
sanitizer, successful server call: the step advances to `success`. -/
theorem handleVerify_success_iff_witness :
    (handleVerify id "alpha beta gamma" [2, 0] ["  Gamma ", "alpha"] true
        .ready).step = .success := by
  have h := (handleVerify_success_iff id "alpha beta gamma" [2, 0]
    ["  Gamma ", "alpha"] true .ready (by decide) (by decide)).1
  exact h.mpr ⟨by decide, rfl⟩


/-- C7: the Account-Recovery phrase step's verify button issues the
server phrase-verification request only for inputs whose sanitized,
lower-cased, trimmed text splits into exactly 24 whitespace-separated
words; any other word count (including the empty input) displays a
local validation error, stays on `phrase`, and never reaches the
network. -/
theorem phraseVerify_wordcount_gate (sanitize : String → String) (raw : String)
    (serverOk : Bool) (life0 : WidgetState) :
    ((jsSplitWs (jsTrim (jsToLower (sanitize raw)))).length ≠ 24 →
      (phraseVerifyClick sanitize raw serverOk life0).networkCalled = false ∧
      (phraseVerifyClick sanitize raw serverOk life0).localError.isSome = true ∧
      (phraseVerifyClick sanitize raw serverOk life0).step = .phrase) ∧
    ((phraseVerifyClick sanitize raw serverOk life0).networkCalled = true →
      (jsSplitWs (jsTrim (jsToLower (sanitize raw)))).length = 24) := by
  by_cases hp : jsTrim (jsToLower (sanitize raw)) = ""
  · constructor
    · intro _
      simp [phraseVerifyClick, hp]
    · intro h
      simp [phraseVerifyClick, hp] at h
  · by_cases hw : (jsSplitWs (jsTrim (jsToLower (sanitize raw)))).length = 24
    · constructor
      · intro hne
        exact absurd hw hne
      · intro _
        exact hw
    · constructor
      · intro _
        simp [phraseVerifyClick, hp, hw]
      · intro h
        simp [phraseVerifyClick, hp, hw] at h

/-- Witness for `phraseVerify_wordcount_gate`: a 23-word input (identity
sanitizer) produces a local error and no network call. -/
theorem phraseVerify_wordcount_gate_witness :
    (phraseVerifyClick id "w w w w w w w w w w w w w w w w w w w w w w w"
        true .ready).networkCalled = false ∧
    (phraseVerifyClick id "w w w w w w w w w w w w w w w w w w w w w w w"
        true .ready).localError.isSome = true ∧
    (phraseVerifyClick id "w w w w w w w w w w w w w w w w w w w w w w w"
        true .ready).step = .phrase := by
  exact (phraseVerify_wordcount_gate id
    "w w w w w w w w w w w w w w w w w w w w w w w" true .ready).1 (by decide)

theorem cooldownTick_iter (k : Nat) (s : EmailVerificationState)
    (ha : s.timerArmed = true) (hk : k < s.resendCooldown) :
    (cooldownTick^[k]) s = ⟨s.resendCooldown - k, true, s.life⟩ := by
  induction k generalizing s with
  | zero =>
      cases s with
      | mk c t l =>
          simp only at ha
          simp [ha]
  | succ k ih =>
      rw [Function.iterate_succ_apply]
      have hc : cooldownTick s = ⟨s.resendCooldown - 1, true, s.life⟩ := by
        unfold cooldownTick
        rw [ha]
        have h1 : ¬(s.resendCooldown - 1 = 0) := by omega
        simp [h1]
      rw [hc]
      rw [ih ⟨s.resendCooldown - 1, true, s.life⟩ rfl (by simp; omega)]
      simp
      omega

/-- C8: while the resend cooldown counter is positive, the resend action
performs no network request and leaves the whole state (in particular
the counter) unchanged; from a cold state, a successful resend with
`resendCooldown = 60` starts the counter at 60 with the timer armed;
each timer tick decrements the counter by one, it stays positive (still
blocking resends without a network call) for the first 59 ticks, and
after the 60th tick the counter is 0, the timer is cleared, and a
resend issues a network request again. -/
theorem resend_cooldown_behavior :
    (∀ (cfg : Option Nat) (netOk : Bool) (s : EmailVerificationState),
      0 < s.resendCooldown →
      handleResendEmail cfg netOk s = (s, false)) ∧
    (∀ s : EmailVerificationState, s.resendCooldown = 0 →
      handleResendEmail (some 60) true s = (⟨60, true, .ready⟩, true)) ∧
    (∀ k, k < 60 →
      ((cooldownTick^[k]) ⟨60, true, .ready⟩).resendCooldown = 60 - k ∧
      0 < ((cooldownTick^[k]) ⟨60, true, .ready⟩).resendCooldown ∧
      handleResendEmail (some 60) true ((cooldownTick^[k]) ⟨60, true, .ready⟩)
        = ((cooldownTick^[k]) ⟨60, true, .ready⟩, false)) ∧
    ((cooldownTick^[60]) ⟨60, true, .ready⟩
        = (⟨0, false, .ready⟩ : EmailVerificationState) ∧
      (handleResendEmail (some 60) true
        ((cooldownTick^[60]) ⟨60, true, .ready⟩)).2 = true) := by
  refine ⟨?_, ?_, ?_, ?_⟩
  · intro cfg netOk s h
    simp [handleResendEmail, h]
  · intro s h
    simp [handleResendEmail, h]
  · intro k hk
    have hiter := cooldownTick_iter k ⟨60, true, .ready⟩ rfl (by simpa using hk)
    have hpos : 0 < 60 - k := by omega
    refine ⟨by rw [hiter], by rw [hiter]; exact hpos, ?_⟩
    rw [hiter]
    simp [handleResendEmail, hpos]
  · have h59 := cooldownTick_iter 59 ⟨60, true, .ready⟩ rfl (by norm_num)
    have h60 : (cooldownTick^[60]) (⟨60, true, .ready⟩ : EmailVerificationState)
        = ⟨0, false, .ready⟩ := by
      rw [show (60 : Nat) = 59 + 1 from rfl, Function.iterate_succ_apply', h59]
      decide
    exact ⟨h60, by rw [h60]; decide⟩

/-- Witness for `resend_cooldown_behavior` at concrete states: a resend
during cooldown 5 is a no-op with no network call; a resend from
cooldown 0 starts the 60-second cooldown; after 10 ticks the counter
is at 50. -/
theorem resend_cooldown_behavior_witness :
    handleResendEmail none true ⟨5, true, .ready⟩ = (⟨5, true, .ready⟩, false) ∧
    handleResendEmail (some 60) true ⟨0, false, .ready⟩
      = (⟨60, true, .ready⟩, true) ∧
    ((cooldownTick^[10]) ⟨60, true, .ready⟩).resendCooldown = 50 := by
  refine ⟨?_, ?_, ?_⟩
  · exact resend_cooldown_behavior.1 none true ⟨5, true, .ready⟩ (by decide)
  · exact resend_cooldown_behavior.2.1 ⟨0, false, .ready⟩ rfl
  · exact (resend_cooldown_behavior.2.2.1 10 (by decide)).1

theorem runListeners_map {α : Type} (ls : List (Listener α)) (p : α) :
    runListeners ls p = ls.map (fun l => caughtResult l p) := by
  induction ls with
  | nil => rfl
  | cons l t ih => simp [runListeners, ih]

theorem runListeners_append {α : Type} (l₁ l₂ : List (Listener α)) (p : α) :
    runListeners (l₁ ++ l₂) p = runListeners l₁ p ++ runListeners l₂ p := by
  induction l₁ with
  | nil => rfl
  | cons l t ih => simp [runListeners, ih]

/-- C10: `emit` isolates listener failures.  With listeners registered
for an event, `emit` invokes every one of them, in order, with the same
payload (its total result records one caught outcome per listener); in
particular, when some listener throws, the exception is caught inside
`emit` — the result is an ordinary list, not a propagated exception —
and all listeners after the throwing one still run on the same
payload. -/
theorem emit_isolates_listener_failures {α : Type} (em : Emitter α)
    (ev : String) (ls : List (Listener α)) (p : α)
    (h : lookupListeners em ev = some ls) :
    emit em ev p = ls.map (fun l => caughtResult l p) ∧
    (emit em ev p).length = ls.length ∧
    (∀ (ls₁ : List (Listener α)) (bad : Listener α) (ls₂ : List (Listener α))
        (e : String), ls = ls₁ ++ bad :: ls₂ → bad p = .error e →
      emit em ev p = runListeners ls₁ p ++ some e :: runListeners ls₂ p) := by
  have he : emit em ev p = runListeners ls p := by
    unfold emit
    rw [h]
  refine ⟨?_, ?_, ?_⟩
  · rw [he, runListeners_map]
  · rw [he, runListeners_map]
    simp
  · intro ls₁ bad ls₂ e hsplit hbad
    rw [he, hsplit, runListeners_append]
    simp [runListeners, caughtResult, hbad]

/-- Witness for `emit_isolates_listener_failures`: two listeners, the
first throws, the second still runs and its outcome is recorded. -/
theorem emit_isolates_listener_failures_witness :
    emit [("evt", [fun _ => .error "boom", fun _ => .ok ()])] "evt" (0 : Nat)
      = [some "boom", none] := by
  have h := (emit_isolates_listener_failures
    [("evt", [fun _ => .error "boom", fun _ => .ok ()])] "evt"
    [fun _ => .error "boom", fun _ => .ok ()] (0 : Nat) rfl).1
  rw [h]
  rfl

end Flowsta
